import Mathlib

/-
Verification of the photo-album pipeline frontend.

Shallow embedding of the TypeScript sources:
  * src/hooks/useBookPhotoQualitySummary.ts (quality-suggestion list)
  * src/lib/api.ts (apiRequest, booksApi.updatePlaceOverride)
  * src/pages/BookDetailPage.tsx (place overrides, place labels,
    segment/itinerary formatting, day narrative)

JavaScript numbers are modelled as rationals (ℚ), JS strings as Lean
strings (one Char per UTF-16 unit in the inputs considered), `null` and
`undefined` as `Option.none`, thrown exceptions as `Except.error`.
`Array.prototype.sort` with a comparator is stable (ES2019); any stable
sort is extensionally identical on a total preorder, so it is embedded
as insertion sort, which is stable.
-/

/-! ## JS-style number rendering -/

/-- Decimal digits of a natural number, most significant first.
`fuel` bounds the recursion depth; `fuel = n + 1` always suffices. -/
def natDigitsAux : ℕ → ℕ → List Char
  | 0, _ => []
  | fuel + 1, n =>
    if n < 10 then [Char.ofNat (48 + n)]
    else natDigitsAux fuel (n / 10) ++ [Char.ofNat (48 + n % 10)]

def natDigits (n : ℕ) : List Char := natDigitsAux (n + 1) n

/-- Decimal rendering of a natural number (JS `String(n)` for integers). -/
def natStr (n : ℕ) : String := String.mk (natDigits n)

/-- Decimal rendering of an integer (JS `String(i)` for safe integers). -/
def intStr (i : ℤ) : String := (if i < 0 then "-" else "") ++ natStr i.natAbs

/-- JS `Math.round`: round half toward positive infinity. -/
def jsRound (q : ℚ) : ℤ := ⌊q + 1 / 2⌋

/-- JS `Number.prototype.toFixed(1)`: one decimal digit; of the two
nearest candidates the larger is chosen, i.e. round half up. -/
def toFixed1 (q : ℚ) : String :=
  let n : ℤ := ⌊q * 10 + 1 / 2⌋
  (if n < 0 then "-" else "") ++ natStr (n.natAbs / 10) ++ "." ++ natStr (n.natAbs % 10)

/-- JS `s.slice(0, n)`. -/
def jsSlice0 (s : String) (n : ℕ) : String := String.mk (s.data.take n)

/-- JS `s.trimEnd()`: drop trailing whitespace. -/
def jsTrimEnd (s : String) : String :=
  String.mk ((s.data.reverse.dropWhile Char.isWhitespace).reverse)

/-! ## Photo quality metrics and the quality-suggestion list (C1)

From `src/lib/api.ts` (`PhotoQualityMetrics`) and
`src/hooks/useBookPhotoQualitySummary.ts`. -/

structure PhotoQualityMetrics where
  photo_id : String
  thumbnail_url : Option String
  file_path : String
  blur_score : ℚ
  brightness : ℚ
  contrast : ℚ
  edge_density : ℚ
  quality_score : ℚ
  face_count : Option ℤ
  flags : List String
deriving DecidableEq

def QUALITY_SUGGESTION_LIMIT : ℕ := 18

/-- Hook `useBookPhotoQualitySummary`, data path:
`(res || []).slice().sort((a, b) => b.quality_score - a.quality_score)`
then `.slice(0, limit)`.  The comparator puts `a` before `b` when
`b.quality_score - a.quality_score < 0`, i.e. sorts by descending
`quality_score`; the stable sort is embedded as insertion sort. -/
def useBookPhotoQualitySummarySelect
    (res : List PhotoQualityMetrics) (limit : ℕ) : List PhotoQualityMetrics :=
  (res.insertionSort (fun a b => b.quality_score ≤ a.quality_score)).take limit

inductive QualitySortOrder where
  | worst
  | best
deriving DecidableEq

/-- Component `PhotosQualityDebugPanel` (BookDetailPage.tsx:1221-1223):
`sortOrder === 'worst' ? b.quality_score - a.quality_score
                       : a.quality_score - b.quality_score`. -/
def photosQualityDebugSorted
    (data : List PhotoQualityMetrics) (sortOrder : QualitySortOrder) :
    List PhotoQualityMetrics :=
  match sortOrder with
  | .worst => data.insertionSort (fun a b => b.quality_score ≤ a.quality_score)
  | .best => data.insertionSort (fun a b => a.quality_score ≤ b.quality_score)

/-! ## Place candidates and overrides (C2, C3) -/

structure PlaceThumb where
  id : String
  thumbUrl : Option String
deriving DecidableEq

/-- Interface `PlaceCandidateDebug` from `src/lib/api.ts`. -/
structure PlaceCandidateDebug where
  centerLat : ℚ
  centerLon : ℚ
  totalDurationHours : ℚ
  totalPhotos : ℕ
  totalDistanceKm : ℚ
  visitCount : ℕ
  dayIndices : List ℕ
  thumbnails : List PlaceThumb
  bestPlaceName : Option String
  rawName : Option String
  displayName : Option String
  stableId : String
  overrideName : Option String
  hidden : Bool
deriving DecidableEq

/-- Interface `UpdatePlaceOverridePayload`.  The outer `Option` is key presence
(`none` = the field is `undefined`), the inner `Option` is JS `null`.
`custom_name` is the snake_case compat spelling also accepted by
`updatePlaceOverride`. -/
structure UpdatePlaceOverridePayload where
  customName : Option (Option String)
  custom_name : Option (Option String)
  hidden : Option Bool
deriving DecidableEq

/-- The JSON body sent by `updatePlaceOverride`; `none` = key absent. -/
structure OverrideRequestBody where
  custom_name : Option (Option String)
  hidden : Option Bool
deriving DecidableEq

/-- Body construction in `booksApi.updatePlaceOverride`:
three `!== undefined` guarded assignments into an empty object. -/
def buildOverrideBody (payload : UpdatePlaceOverridePayload) : OverrideRequestBody :=
  let b : OverrideRequestBody := { custom_name := none, hidden := none }
  let b := match payload.customName with
    | some v => { b with custom_name := some v }
    | none => b
  let b := match payload.custom_name with
    | some v => { b with custom_name := some v }
    | none => b
  let b := match payload.hidden with
    | some v => { b with hidden := some v }
    | none => b
  b

/-- Handler `handleToggleHidden` calls
`handleSaveOverride(stableId, undefined, !currentlyHidden)`, which calls
`updatePlaceOverride(id, stableId, { customName, hidden })`; so the
payload has `customName` undefined and `hidden` set. -/
def toggleHiddenPayload (currentlyHidden : Bool) : UpdatePlaceOverridePayload :=
  { customName := none, custom_name := none, hidden := some (!currentlyHidden) }

/-- Observable outcome of `handleSaveOverride`: the new places list and
which toast was raised. -/
structure SaveOverrideOutcome where
  places : List PlaceCandidateDebug
  toast : String
  isError : Bool
deriving DecidableEq

/-- Handler `handleSaveOverride` (BookDetailPage.tsx:218-233).  On API success it
maps the local list, replacing entries whose `stableId` equals the
returned one, and raises the success toast; on API failure it leaves the
list untouched and raises the error toast. -/
def handleSaveOverrideOutcome
    (prev : List PlaceCandidateDebug)
    (apiResult : Except String PlaceCandidateDebug) : SaveOverrideOutcome :=
  match apiResult with
  | .ok updated =>
    { places := prev.map (fun p => if p.stableId = updated.stableId then updated else p)
      toast := "Place override saved"
      isError := false }
  | .error _ =>
    { places := prev
      toast := "Failed to save place override"
      isError := true }

/-! ## Place labels (C4, C5)

BookDetailPage.tsx:684-685:
`const placeName = p.overrideName ?? p.displayName ?? p.rawName ?? p.bestPlaceName;`
`const shortName = placeName && placeName.length > 50 ? truncated+ellipsis : placeName;`
where the truncation is `placeName.slice(0, 47).trimEnd()` followed by an
ellipsis character. -/

def placesPlaceName (p : PlaceCandidateDebug) : Option String :=
  p.overrideName <|> p.displayName <|> p.rawName <|> p.bestPlaceName

def placesShortName (p : PlaceCandidateDebug) : Option String :=
  match placesPlaceName p with
  | none => none
  | some s =>
    if s ≠ "" ∧ 50 < s.length then some (jsTrimEnd (jsSlice0 s 47) ++ "…")
    else some s

/-- Label rule as C4 states it: overrideName when non-null, else
displayName, else rawName, else bestPlaceName; a label longer than 50
characters is truncated to its first 47 characters (right-trimmed)
followed by an ellipsis. -/
def placeLabelSpec (p : PlaceCandidateDebug) : Option String :=
  let name : Option String :=
    match p.overrideName with
    | some s => some s
    | none =>
      match p.displayName with
      | some s => some s
      | none =>
        match p.rawName with
        | some s => some s
        | none => p.bestPlaceName
  match name with
  | none => none
  | some s => some (if 50 < s.length then jsTrimEnd (jsSlice0 s 47) ++ "…" else s)

/-! ## Segment debug formatters (C7)

BookDetailPage.tsx:1701-1712. -/

def formatDuration (mins : Option ℚ) : String :=
  match mins with
  | none => "Duration: —"
  | some m =>
    if 60 ≤ m then "Duration: " ++ toFixed1 (m / 60) ++ " h"
    else "Duration: " ++ intStr (jsRound m) ++ " min"

def formatDistance (km : Option ℚ) : String :=
  match km with
  | none => "Distance: —"
  | some k => "Distance: ~" ++ toFixed1 k ++ " km"

/-! ## Day itinerary summary (C9)

BookDetailPage.tsx:1714-1742. -/

/-- Function `isReasonableDayDistanceKm`.  JS truthiness: `!totalKm` is
true for `null` and for `0`; `totalHours && totalHours > 0 ? totalHours : 0`
collapses `null`, `0` and negatives to `0`; `!hours` is true for `0`. -/
def isReasonableDayDistanceKm (totalKm totalHours : Option ℚ) : Bool :=
  match totalKm with
  | none => false
  | some km =>
    if km = 0 then false
    else if km ≤ 0 then false
    else if km ≤ 300 then true
    else
      let hours : ℚ := match totalHours with
        | some h => if 0 < h then h else 0
        | none => 0
      if hours = 0 then false
      else decide (km / hours ≤ 150)

/-- Input of `formatItinerarySummary`: the itinerary day projected onto
the fields the function reads.  `stopsCount` stands for
`day.stops.length` (only the length of `stops` is read); the distance
and duration are `none` when the field is not a number. -/
structure ItineraryDayLite where
  photos_count : ℕ
  stopsCount : ℕ
  segments_total_distance_km : Option ℚ
  segments_total_duration_hours : Option ℚ
deriving DecidableEq

def jsPluralS (n : ℕ) : String := if n = 1 then "" else "s"

def itineraryPhotosPart (day : ItineraryDayLite) : String :=
  natStr day.photos_count ++ " photo" ++ jsPluralS day.photos_count

def itinerarySegmentsPart (day : ItineraryDayLite) : String :=
  natStr day.stopsCount ++ " segment" ++ jsPluralS day.stopsCount

def itineraryKmPart (k : ℚ) : String := "~" ++ toFixed1 k ++ " km"

def itineraryHoursPart (h : ℚ) : String := toFixed1 h ++ " h"

/-- Parts list built by `formatItinerarySummary` before joining:
photos, segments, then the distance guarded by
`km && isReasonableDayDistanceKm(km, hours)`, then the duration guarded
by `hours && hours > 0`. -/
def formatItineraryParts (day : ItineraryDayLite) : List String :=
  let parts := [itineraryPhotosPart day, itinerarySegmentsPart day]
  let parts := match day.segments_total_distance_km with
    | some k =>
      if k ≠ 0 ∧ isReasonableDayDistanceKm (some k) day.segments_total_duration_hours
      then parts ++ [itineraryKmPart k] else parts
    | none => parts
  let parts := match day.segments_total_duration_hours with
    | some h => if h ≠ 0 ∧ 0 < h then parts ++ [itineraryHoursPart h] else parts
    | none => parts
  parts

def formatItinerarySummary (day : ItineraryDayLite) : String :=
  String.intercalate " • " (formatItineraryParts day)

/-- Distance-inclusion condition as C9 states it: the distance is a
positive number, and either it is at most 300 km or a positive total
duration is known under which the implied average speed is at most
150 km/h. -/
def kmShownSpec (km totalHours : Option ℚ) : Bool :=
  match km with
  | none => false
  | some k =>
    decide (0 < k) &&
      (decide (k ≤ 300) ||
        match totalHours with
        | some h => decide (0 < h) && decide (k / h ≤ 150)
        | none => false)

/-- Duration-inclusion condition: a positive duration is known. -/
def hoursShownSpec (totalHours : Option ℚ) : Bool :=
  match totalHours with
  | some h => decide (0 < h)
  | none => false

/-! ## Day narrative (C10)

BookDetailPage.tsx:1744-1780. -/

structure DayStats where
  segmentsCount : ℕ
  totalDurationMinutes : ℚ
  totalDistanceKm : ℚ
  photoCount : ℕ
deriving DecidableEq

structure DayNarrativeSummary where
  label : String
  durationLabel : String
  distanceLabel : String
deriving DecidableEq

def buildDayNarrative (stats : DayStats) : DayNarrativeSummary :=
  let hours := stats.totalDurationMinutes / 60
  let far := decide (100 ≤ stats.totalDistanceKm)
  let mediumDistance := decide (10 ≤ stats.totalDistanceKm) && decide (stats.totalDistanceKm < 100)
  let longDay := decide (8 ≤ hours)
  let shortDay := decide (hours < 3)
  let label :=
    if far then "Big travel day"
    else if longDay && mediumDistance then "Full-day exploring"
    else if shortDay && decide (stats.totalDistanceKm < 5) then "Chill day nearby"
    else if longDay then "Long day out"
    else if mediumDistance then "Out and about"
    else "Easygoing day"
  { label := label
    durationLabel := toFixed1 hours ++ " h out and about"
    distanceLabel := "~" ++ toFixed1 stats.totalDistanceKm ++ " km traveled" }

/-- Label precedence exactly as C10 states it, with
`hours = totalDurationMinutes / 60`. -/
def dayNarrativeLabelSpec (stats : DayStats) : String :=
  let hours := stats.totalDurationMinutes / 60
  let d := stats.totalDistanceKm
  if 100 ≤ d then "Big travel day"
  else if 8 ≤ hours ∧ 10 ≤ d ∧ d < 100 then "Full-day exploring"
  else if hours < 3 ∧ d < 5 then "Chill day nearby"
  else if 8 ≤ hours then "Long day out"
  else if 10 ≤ d ∧ d < 100 then "Out and about"
  else "Easygoing day"

/-! ## The API request wrapper (C8)

Function `apiRequest` in `src/lib/api.ts:118-138`.  The `fetch` response is
characterised by its `ok` flag, its `status`, and the result of
`response.json()`: `some j` when the body parses as JSON, `none` when
parsing rejects. -/

/-- JSON values (the result of `response.json()`). -/
inductive JsValue where
  | null
  | bool (b : Bool)
  | num (q : ℚ)
  | str (s : String)
  | arr (elems : List JsValue)
  | obj (fields : List (String × JsValue))

/-- Exceptions `apiRequest` can raise: `Error(message)` thrown
explicitly by the code, the runtime TypeError raised by a property
access on `null`, and the SyntaxError with which `response.json()`
rejects on an unparseable body. -/
inductive JsException where
  | error (message : String)
  | typeError (message : String)
  | syntaxError (message : String)
deriving DecidableEq

/-- JS property access `error.detail`: on `null` the runtime throws a
TypeError (message as phrased by V8); an object yields its first
binding or `undefined`; every other value yields `undefined`
(primitives are boxed, arrays have no such property). -/
def JsValue.getField : JsValue → String → Except JsException (Option JsValue)
  | .null, k => .error (.typeError ("Cannot read properties of null (reading '" ++ k ++ "')"))
  | .obj fields, k => .ok (fields.lookup k)
  | _, _ => .ok none

/-- JS truthiness of a JSON value (`NaN` is not representable in ℚ). -/
def JsValue.truthy : JsValue → Bool
  | .null => false
  | .bool b => b
  | .num q => decide (q ≠ 0)
  | .str s => decide (s ≠ "")
  | .arr _ => true
  | .obj _ => true

/-- Multiplicity of the prime `p` in `n`, with explicit fuel. -/
def factorMultAux (p : ℕ) : ℕ → ℕ → ℕ
  | 0, _ => 0
  | fuel + 1, n => if 2 ≤ p ∧ n ≠ 0 ∧ n % p = 0 then factorMultAux p fuel (n / p) + 1 else 0

def factorMult (p n : ℕ) : ℕ := factorMultAux p n n

/-- JS decimal rendering of a number.  A JS number is modelled by the
rational its (shortest) decimal representation denotes, and `String()`
prints exactly that finite decimal expansion, which exists iff the
reduced denominator is of the form 2^a·5^b.  Rationals with any other
denominator are the value of no JS number (floats are dyadic); they
render as `num/den` for totality only. -/
def ratDecimalStr (q : ℚ) : String :=
  let a := factorMult 2 q.den
  let b := factorMult 5 q.den
  if q.den = 2 ^ a * 5 ^ b then
    let k := max a b
    let scaled := q.num.natAbs * (10 ^ k / q.den)
    let ip := scaled / 10 ^ k
    let frDigits := natDigits (scaled % 10 ^ k)
    (if q.num < 0 then "-" else "") ++ natStr ip ++
      (if k = 0 then ""
       else "." ++ String.mk (List.replicate (k - frDigits.length) '0' ++ frDigits))
  else
    intStr q.num ++ "/" ++ natStr q.den

mutual

/-- JS string coercion `String(v)` as applied by `new Error(message)`:
strings verbatim, booleans and null by name, numbers by their decimal
notation (`ratDecimalStr`), arrays as their elements coerced recursively
and joined with commas (a null element becomes the empty string), plain
objects as "[object Object]". -/
def JsValue.asMessage : JsValue → String
  | .null => "null"
  | .bool true => "true"
  | .bool false => "false"
  | .num q => ratDecimalStr q
  | .str s => s
  | .arr elems => String.intercalate "," (jsArrayElemStrings elems)
  | .obj _ => "[object Object]"

/-- Elementwise coercion inside `Array.prototype.join`: a null element
renders empty, every other element via `String()`. -/
def jsArrayElemStrings : List JsValue → List String
  | [] => []
  | JsValue.null :: rest => "" :: jsArrayElemStrings rest
  | e :: rest => JsValue.asMessage e :: jsArrayElemStrings rest

end

structure HttpResponse where
  ok : Bool
  status : ℕ
  parsedBody : Option JsValue

/-- Function `apiRequest`, observable behaviour per response.  On a
non-ok response: `response.json().catch(() => ({ detail: 'Request failed' }))`
then `throw new Error(error.detail || 'HTTP ' + status)` — where the
`error.detail` access itself throws a TypeError when the parsed body is
JSON `null`.  On an ok response: return `response.json()` (whose
rejection on an unparseable body propagates as a thrown SyntaxError). -/
def apiRequest (resp : HttpResponse) : Except JsException JsValue :=
  if resp.ok then
    match resp.parsedBody with
    | some j => .ok j
    | none => .error (.syntaxError "Unexpected end of JSON input")
  else
    let error : JsValue := match resp.parsedBody with
      | some j => j
      | none => .obj [("detail", .str "Request failed")]
    match error.getField "detail" with
    | .error e => .error e
    | .ok (some d) =>
      .error (.error (if d.truthy then d.asMessage else "HTTP " ++ natStr resp.status))
    | .ok none => .error (.error ("HTTP " ++ natStr resp.status))

/-! ## The book-planning pipeline (C6)

Modelled from the spec: the trip-analysis/book-planning pipeline is the
Python backend, which is not part of this repository checkout (only its
HTTP callers are under `src/`).  The definitions below follow spec §4.5
(Book Planner) and §3 (BookPlan): geo coverage, the map-vs-gallery
decision with its 0.05/0.25 boundaries, chapters as contiguous runs of
day labels, highlight selection under a cap with book-identity-seeded
tie-breaking, stop-legend capping with first/last retention and a
"+N more" marker, and user-picks precedence.  Per the spec the planner
is deterministic: it accepts a wall-clock reading and an entropy source
but may not consult either. -/

inductive MapOrGallery where
  | map
  | gallery
deriving DecidableEq

inductive LegendGranularity where
  | full
  | cityLevel
deriving DecidableEq

inductive PicksSource where
  | auto
  | enhanced
  | user
deriving DecidableEq

/-- Modelled from the spec: a normalized approved asset as the planner
sees it (manifest entry plus quality/duplicate annotations). -/
structure PlanAsset where
  id : String
  takenAt : Option ℤ
  lat : Option ℚ
  lon : Option ℚ
  qualityScore : ℚ
  flags : List String
  duplicateNonKeep : Bool
deriving DecidableEq

/-- Modelled from the spec: a Stop as seen by the planner. -/
structure PlanStop where
  stableId : String
  label : String
  totalPhotos : ℕ
deriving DecidableEq

structure PlanStopOverride where
  overrideName : Option String
  hidden : Bool
deriving DecidableEq

/-- Modelled from the spec: the full input of one pipeline run,
including persisted override state and the picks provenance. -/
structure PipelineInput where
  bookId : String
  title : Option String
  assets : List PlanAsset
  dayLabels : List (Option String)
  stops : List PlanStop
  overrides : List (String × PlanStopOverride)
  picksSource : PicksSource
  userHighlights : List String
deriving DecidableEq

structure PlanChapter where
  cityLabel : String
  startDayIndex : ℕ
  endDayIndex : ℕ
deriving DecidableEq

/-- Modelled from the spec: the `BookPlan` contract (§3). -/
structure BookPlan where
  title : String
  dateRange : String
  geoCoverage : ℚ
  mapOrGallery : MapOrGallery
  legendGranularity : LegendGranularity
  highlights : List String
  galleryPicks : List String
  stopLegend : List String
  stopLegendOverflow : Option String
  chapters : List PlanChapter
  picksSource : PicksSource
deriving DecidableEq

/-- Modelled from the spec: geo coverage = geotagged / approved. -/
def geoCoverage (assets : List PlanAsset) : ℚ :=
  if assets.length = 0 then 0
  else ((assets.filter (fun a => a.lat.isSome && a.lon.isSome)).length : ℚ) / (assets.length : ℚ)

/-- Modelled from the spec: `geoCoverage >= 0.25` gives a map with full
legend, `0.05 <= geoCoverage < 0.25` a map with city-level legend,
otherwise gallery. -/
def mapDecision (cov : ℚ) : MapOrGallery × LegendGranularity :=
  if 1 / 4 ≤ cov then (.map, .full)
  else if 1 / 20 ≤ cov then (.map, .cityLevel)
  else (.gallery, .full)

/-- Modelled from the spec: one chapter per contiguous run of days
sharing a dominant city label; a later return to an earlier label opens
a new chapter. -/
def chaptersAux : ℕ → Option PlanChapter → List (Option String) → List PlanChapter
  | _, none, [] => []
  | _, some c, [] => [c]
  | i, none, none :: rest => chaptersAux (i + 1) none rest
  | i, none, some l :: rest => chaptersAux (i + 1) (some ⟨l, i, i⟩) rest
  | i, some c, none :: rest => c :: chaptersAux (i + 1) none rest
  | i, some c, some l :: rest =>
    if l = c.cityLabel then chaptersAux (i + 1) (some { c with endDayIndex := i }) rest
    else c :: chaptersAux (i + 1) (some ⟨l, i, i⟩) rest

def chaptersOfDayLabels (labels : List (Option String)) : List PlanChapter :=
  chaptersAux 0 none labels

/-- Modelled from the spec: a deterministic hash of the book identity,
used to seed tie-breaking (never wall-clock, never container order). -/
def stableHash (s : String) : ℕ :=
  s.data.foldl (fun h c => (h * 31 + c.toNat) % 1000000007) 7

def seededKey (seed : ℕ) (id : String) : ℕ :=
  (stableHash id + seed * 2654435761) % 1000000007

def HIGHLIGHT_CAP : ℕ := 6

def GALLERY_CAP : ℕ := 12

def STOP_LEGEND_CAP : ℕ := 8

/-- Modelled from the spec: candidate pool = approved assets minus
duplicate non-keeps minus hard quality disqualifications
(`very_blurry` combined with `very_dark`), ranked by descending
quality with seeded tie-break. -/
def rankedCandidates (input : PipelineInput) (seed : ℕ) : List PlanAsset :=
  let pool := input.assets.filter (fun a =>
    !a.duplicateNonKeep && !(a.flags.contains "very_blurry" && a.flags.contains "very_dark"))
  pool.insertionSort (fun a b =>
    b.qualityScore < a.qualityScore ∨
      (b.qualityScore = a.qualityScore ∧ seededKey seed a.id ≤ seededKey seed b.id))

/-- Modelled from the spec: highlights are the user picks verbatim when
`picksSource == user`, otherwise the top candidates up to the cap. -/
def selectHighlights (input : PipelineInput) (seed : ℕ) : List String :=
  if input.picksSource = PicksSource.user then input.userHighlights
  else ((rankedCandidates input seed).take HIGHLIGHT_CAP).map (fun a => a.id)

def selectGalleryPicks (input : PipelineInput) (seed : ℕ) : List String :=
  if input.picksSource = PicksSource.user then input.userHighlights
  else ((rankedCandidates input seed).take GALLERY_CAP).map (fun a => a.id)

/-- Modelled from the spec: re-key overrides by `stableId`, apply
rename/hide, silently drop overrides whose `stableId` no longer exists. -/
def applyStopOverrides
    (stops : List PlanStop) (overrides : List (String × PlanStopOverride)) : List PlanStop :=
  stops.filterMap (fun s =>
    match overrides.lookup s.stableId with
    | some o =>
      if o.hidden then none
      else some { s with label := match o.overrideName with | some n => n | none => s.label }
    | none => some s)

/-- Modelled from the spec: if the Stop count exceeds the cap, always
keep the chronologically first and last Stop, fill the remaining slots
by descending `totalPhotos`, keep chronological order, and append an
explicit "+N more" marker. -/
def stopLegendOf (stops : List PlanStop) : List String × Option String :=
  if stops.length ≤ STOP_LEGEND_CAP then (stops.map (fun s => s.label), none)
  else
    let n := stops.length
    let withIdx := stops.enum
    let middle := withIdx.filter (fun p => p.1 ≠ 0 ∧ p.1 ≠ n - 1)
    let chosen := (middle.insertionSort (fun a b => b.2.totalPhotos ≤ a.2.totalPhotos)).take
      (STOP_LEGEND_CAP - 2)
    let keepIdx := 0 :: (n - 1) :: chosen.map (fun p => p.1)
    let kept := withIdx.filter (fun p => p.1 ∈ keepIdx)
    (kept.map (fun p => p.2.label), some ("+" ++ natStr (n - STOP_LEGEND_CAP) ++ " more"))

/-- Modelled from the spec: the date range degrades to a documented
fallback label when no timestamps exist. -/
def dateRangeOf (assets : List PlanAsset) : String :=
  let ts := assets.filterMap (fun a => a.takenAt)
  match ts.min?, ts.max? with
  | some a, some b => intStr a ++ "–" ++ intStr b
  | _, _ => "Unknown dates"

/-- Modelled from the spec: one full pipeline run.  `wallClockMs` and
`entropy` stand for the ambient wall clock and any unseeded randomness
available to the process; the spec requires that neither influences the
plan, so the body never consults them. -/
def buildBookPlan (input : PipelineInput) (wallClockMs : ℤ) (entropy : ℕ) : BookPlan :=
  let _ := wallClockMs
  let _ := entropy
  let seed := stableHash input.bookId
  let cov := geoCoverage input.assets
  let decision := mapDecision cov
  let visibleStops := applyStopOverrides input.stops input.overrides
  let legend := stopLegendOf visibleStops
  { title := input.title.getD "Untitled Trip"
    dateRange := dateRangeOf input.assets
    geoCoverage := cov
    mapOrGallery := decision.1
    legendGranularity := decision.2
    highlights := selectHighlights input seed
    galleryPicks := selectGalleryPicks input seed
    stopLegend := legend.1
    stopLegendOverflow := legend.2
    chapters := chaptersOfDayLabels input.dayLabels
    picksSource := input.picksSource }

/-! ## Concrete inputs used by witnesses and counterexamples -/

def pqmLow : PhotoQualityMetrics :=
  { photo_id := "low", thumbnail_url := none, file_path := "low.jpg"
    blur_score := 12, brightness := 40, contrast := 5, edge_density := 0
    quality_score := 2, face_count := none, flags := ["very_blurry"] }

def pqmHigh : PhotoQualityMetrics :=
  { photo_id := "high", thumbnail_url := none, file_path := "high.jpg"
    blur_score := 250, brightness := 120, contrast := 60, edge_density := 1
    quality_score := 9, face_count := none, flags := [] }

def pqmMid : PhotoQualityMetrics :=
  { photo_id := "mid", thumbnail_url := none, file_path := "mid.jpg"
    blur_score := 100, brightness := 90, contrast := 30, edge_density := 1
    quality_score := 5, face_count := none, flags := [] }

def placeA : PlaceCandidateDebug :=
  { centerLat := 48, centerLon := 2, totalDurationHours := 3, totalPhotos := 12
    totalDistanceKm := 5, visitCount := 2, dayIndices := [0, 1], thumbnails := []
    bestPlaceName := some "Paris", rawName := none, displayName := some "Paris, France"
    stableId := "sa", overrideName := none, hidden := false }

def placeB : PlaceCandidateDebug :=
  { centerLat := 45, centerLon := 5, totalDurationHours := 1, totalPhotos := 4
    totalDistanceKm := 2, visitCount := 1, dayIndices := [2], thumbnails := []
    bestPlaceName := none, rawName := some "Lyon", displayName := none
    stableId := "sb", overrideName := none, hidden := false }

def placeUpdatedNoMatch : PlaceCandidateDebug :=
  { placeA with stableId := "zz", overrideName := some "Somewhere" }

def placeUpdatedMatch : PlaceCandidateDebug :=
  { placeB with overrideName := some "Renamed Lyon" }

def placeNoNames : PlaceCandidateDebug :=
  { centerLat := 48, centerLon := 2, totalDurationHours := 3, totalPhotos := 12
    totalDistanceKm := 5, visitCount := 2, dayIndices := [0, 1], thumbnails := []
    bestPlaceName := none, rawName := none, displayName := none
    stableId := "stop-unnamed", overrideName := none, hidden := false }

def placeNoNamesB : PlaceCandidateDebug :=
  { centerLat := -33, centerLon := 151, totalDurationHours := 2, totalPhotos := 7
    totalDistanceKm := 1, visitCount := 1, dayIndices := [3], thumbnails := []
    bestPlaceName := none, rawName := none, displayName := none
    stableId := "stop-unnamed-b", overrideName := none, hidden := true }

/-! ## Helper lemmas on string rendering -/

theorem natDigitsAux_ne_nil (fuel n : ℕ) : natDigitsAux (fuel + 1) n ≠ [] := by
  simp only [natDigitsAux]
  split
  · simp
  · simp

theorem natStr_length_pos (n : ℕ) : 0 < (natStr n).length :=
  List.length_pos.mpr (natDigitsAux_ne_nil n n)

theorem intStr_length_pos (i : ℤ) : 0 < (intStr i).length := by
  unfold intStr
  rw [String.length_append]
  have := natStr_length_pos i.natAbs
  omega

theorem toFixed1_length (q : ℚ) : 3 ≤ (toFixed1 q).length := by
  unfold toFixed1
  dsimp only
  have h1 := natStr_length_pos ((⌊q * 10 + 1 / 2⌋).natAbs / 10)
  have h2 := natStr_length_pos ((⌊q * 10 + 1 / 2⌋).natAbs % 10)
  have hdot : ("." : String).length = 1 := rfl
  split <;> simp only [String.length_append] <;> omega

theorem formatDuration_some_ne_dash (m : ℚ) : formatDuration (some m) ≠ "Duration: —" := by
  have hdash : ("Duration: —" : String).length = 11 := rfl
  have hpre : ("Duration: " : String).length = 10 := rfl
  simp only [formatDuration]
  split
  · intro h
    have hlen := congrArg String.length h
    simp only [String.length_append] at hlen
    have := toFixed1_length (m / 60)
    have hh : (" h" : String).length = 2 := rfl
    omega
  · intro h
    have hlen := congrArg String.length h
    simp only [String.length_append] at hlen
    have := intStr_length_pos (jsRound m)
    have hm : (" min" : String).length = 4 := rfl
    omega

theorem formatDistance_some_ne_dash (k : ℚ) : formatDistance (some k) ≠ "Distance: —" := by
  have hdash : ("Distance: —" : String).length = 11 := rfl
  have hpre : ("Distance: ~" : String).length = 11 := rfl
  simp only [formatDistance]
  intro h
  have hlen := congrArg String.length h
  simp only [String.length_append] at hlen
  have := toFixed1_length k
  have hk : (" km" : String).length = 3 := rfl
  omega

/-- C7: `durationMinutes` and `approxDistanceKm` are nullable and the
segment debug rendering is total over null inputs: `formatDuration`
returns "Duration: —" exactly when its input is null/undefined, and
otherwise renders whole minutes, or hours to one decimal when the
minutes are at least 60; `formatDistance` returns "Distance: —" exactly
when its input is null/undefined, and otherwise renders "~(km) km" to
one decimal. -/
theorem c7_segment_formatters_dash_iff_null :
    (∀ x : Option ℚ, formatDuration x = "Duration: —" ↔ x = none) ∧
    (∀ m : ℚ, formatDuration (some m) =
        if 60 ≤ m then "Duration: " ++ toFixed1 (m / 60) ++ " h"
        else "Duration: " ++ intStr (jsRound m) ++ " min") ∧
    (∀ x : Option ℚ, formatDistance x = "Distance: —" ↔ x = none) ∧
    (∀ k : ℚ, formatDistance (some k) = "Distance: ~" ++ toFixed1 k ++ " km") := by
  refine ⟨fun x => ?_, fun m => rfl, fun x => ?_, fun k => rfl⟩
  · cases x with
    | none => simp [formatDuration]
    | some m => simp [formatDuration_some_ne_dash m]
  · cases x with
    | none => simp [formatDistance]
    | some k => simp [formatDistance_some_ne_dash k]

theorem kmGuard_iff (k : ℚ) (hrs : Option ℚ) :
    (k ≠ 0 ∧ isReasonableDayDistanceKm (some k) hrs = true) ↔
      kmShownSpec (some k) hrs = true := by
  unfold isReasonableDayDistanceKm kmShownSpec
  by_cases h0 : k = 0
  · simp [h0]
  · by_cases hneg : k ≤ 0
    · have hnpos : ¬ (0 < k) := not_lt.mpr hneg
      simp [h0, hneg, hnpos]
    · have hpos : (0 : ℚ) < k := not_le.mp hneg
      by_cases h300 : k ≤ 300
      · simp [h0, hneg, h300, hpos]
      · rcases hrs with _ | h
        · simp [h0, hneg, h300, hpos]
        · by_cases hp : (0 : ℚ) < h
          · have hne : h ≠ 0 := ne_of_gt hp
            simp [h0, hneg, h300, hpos, hp, hne]
          · simp [h0, hneg, h300, hpos, hp]

theorem hoursGuard_iff (h : ℚ) :
    (h ≠ 0 ∧ 0 < h) ↔ hoursShownSpec (some h) = true := by
  unfold hoursShownSpec
  simp only [decide_eq_true_eq]
  exact ⟨fun hc => hc.2, fun hp => ⟨ne_of_gt hp, hp⟩⟩

/-- C9: in the day itinerary summary the total distance appears exactly
when it is a positive number and either at most 300 km or covered by a
positive known duration implying an average speed of at most 150 km/h;
the photo-count, segment-count and hours parts are built independently
of that plausibility check. -/
theorem c9_itinerary_distance_plausibility (day : ItineraryDayLite) :
    formatItineraryParts day =
      [itineraryPhotosPart day, itinerarySegmentsPart day]
        ++ (match day.segments_total_distance_km with
            | some k =>
              if kmShownSpec day.segments_total_distance_km day.segments_total_duration_hours
              then [itineraryKmPart k] else []
            | none => [])
        ++ (match day.segments_total_duration_hours with
            | some h =>
              if hoursShownSpec day.segments_total_duration_hours
              then [itineraryHoursPart h] else []
            | none => []) := by
  rcases day with ⟨pc, sc, km, hrs⟩
  cases km with
  | none =>
    cases hrs with
    | none => rfl
    | some h =>
      simp only [formatItineraryParts]
      dsimp only
      by_cases hp : (0 : ℚ) < h
      · rw [if_pos ⟨ne_of_gt hp, hp⟩, if_pos ((hoursGuard_iff h).mp ⟨ne_of_gt hp, hp⟩)]
        simp
      · rw [if_neg (fun hc => hp hc.2),
          if_neg (fun hsh => hp ((hoursGuard_iff h).mpr hsh).2)]
        rfl
  | some k =>
    cases hrs with
    | none =>
      simp only [formatItineraryParts]
      dsimp only
      by_cases hs : kmShownSpec (some k) none = true
      · rw [if_pos ((kmGuard_iff k none).mpr hs), if_pos hs]
        simp
      · rw [if_neg (fun hc => hs ((kmGuard_iff k none).mp hc)), if_neg hs]
        simp
    | some h =>
      simp only [formatItineraryParts]
      dsimp only
      by_cases hs : kmShownSpec (some k) (some h) = true
      · rw [if_pos ((kmGuard_iff k (some h)).mpr hs), if_pos hs]
        by_cases hp : (0 : ℚ) < h
        · rw [if_pos ⟨ne_of_gt hp, hp⟩, if_pos ((hoursGuard_iff h).mp ⟨ne_of_gt hp, hp⟩)]
        · rw [if_neg (fun hc => hp hc.2),
            if_neg (fun hsh => hp ((hoursGuard_iff h).mpr hsh).2)]
          simp
      · rw [if_neg (fun hc => hs ((kmGuard_iff k (some h)).mp hc)), if_neg hs]
        by_cases hp : (0 : ℚ) < h
        · rw [if_pos ⟨ne_of_gt hp, hp⟩, if_pos ((hoursGuard_iff h).mp ⟨ne_of_gt hp, hp⟩)]
          simp
        · rw [if_neg (fun hc => hp hc.2),
            if_neg (fun hsh => hp ((hoursGuard_iff h).mpr hsh).2)]
          simp

/-- C10: `buildDayNarrative` assigns the day label by the exact
precedence: "Big travel day" when distance ≥ 100 km; else
"Full-day exploring" when hours ≥ 8 and distance in [10, 100); else
"Chill day nearby" when hours < 3 and distance < 5 km; else
"Long day out" when hours ≥ 8; else "Out and about" when distance in
[10, 100); else "Easygoing day" — where hours = totalDurationMinutes/60. -/
theorem c10_day_narrative_label (stats : DayStats) :
    (buildDayNarrative stats).label = dayNarrativeLabelSpec stats := by
  unfold buildDayNarrative dayNarrativeLabelSpec
  dsimp only
  simp only [Bool.and_eq_true, decide_eq_true_eq]

theorem shortNameCore (s : String) :
    (if s ≠ "" ∧ 50 < s.length then some (jsTrimEnd (jsSlice0 s 47) ++ "…")
     else some s)
      = some (if 50 < s.length then jsTrimEnd (jsSlice0 s 47) ++ "…" else s) := by
  by_cases h0 : s = ""
  · subst h0
    have hlen : ¬ (50 < ("" : String).length) := by decide
    simp [hlen]
  · by_cases hl : 50 < s.length
    · rw [if_pos ⟨h0, hl⟩, if_pos hl]
    · rw [if_neg (fun hc => hl hc.2), if_neg hl]

/-- C4: the displayed place label is derived from `overrideName` when it
is non-null, otherwise `displayName`, otherwise `rawName`, otherwise
`bestPlaceName`; a label longer than 50 characters is truncated to its
first 47 characters, right-trimmed, followed by an ellipsis. -/
theorem c4_place_label_rule (p : PlaceCandidateDebug) :
    placesShortName p = placeLabelSpec p := by
  rcases p with ⟨lat, lon, tdh, tp, tdk, vc, di, th, bpn, rn, dn, sid, ovr, hid⟩
  unfold placesShortName placeLabelSpec placesPlaceName
  dsimp only
  rcases ovr with _ | s0 <;> rcases dn with _ | s1 <;> rcases rn with _ | s2 <;>
    rcases bpn with _ | s3 <;>
    simp only [Option.some_orElse, Option.none_orElse, shortNameCore]

/-- C2: the Stop-override request body contains only the fields provided
in the payload — the `custom_name` key is present iff a custom name was
supplied (in either spelling), and the `hidden` key is present iff a
hidden value was supplied; in particular the hidden-toggle payload
produces a body with no `custom_name` key at all, so an existing
`overrideName` is not touched. -/
theorem c2_override_body_fields :
    (∀ payload : UpdatePlaceOverridePayload,
        (buildOverrideBody payload).custom_name.isSome
            = (payload.customName.isSome || payload.custom_name.isSome) ∧
        (buildOverrideBody payload).hidden.isSome = payload.hidden.isSome) ∧
    (∀ currentlyHidden : Bool,
        buildOverrideBody (toggleHiddenPayload currentlyHidden)
          = { custom_name := none, hidden := some (!currentlyHidden) }) := by
  constructor
  · rintro ⟨cN, c_n, hd⟩
    rcases cN with _ | v <;> rcases c_n with _ | w <;> rcases hd with _ | b <;>
      simp [buildOverrideBody]
  · intro currentlyHidden
    rfl

/-- C3: saving a Stop override whose returned `stableId` matches no
entry leaves the place list unchanged and is not surfaced as an error
(the success toast is raised); when the `stableId` does match an entry,
exactly that entry is replaced and every other entry is unchanged. -/
theorem c3_save_override_frame
    (prev : List PlaceCandidateDebug) (updated : PlaceCandidateDebug) :
    ((∀ p ∈ prev, p.stableId ≠ updated.stableId) →
        (handleSaveOverrideOutcome prev (Except.ok updated)).places = prev) ∧
    (handleSaveOverrideOutcome prev (Except.ok updated)).isError = false ∧
    (handleSaveOverrideOutcome prev (Except.ok updated)).toast = "Place override saved" ∧
    (∀ i : ℕ, ∀ p : PlaceCandidateDebug, prev[i]? = some p →
        (p.stableId = updated.stableId →
            (handleSaveOverrideOutcome prev (Except.ok updated)).places[i]? = some updated) ∧
        (p.stableId ≠ updated.stableId →
            (handleSaveOverrideOutcome prev (Except.ok updated)).places[i]? = some p)) := by
  refine ⟨fun hnone => ?_, rfl, rfl, fun i p hp => ⟨fun heq => ?_, fun hne => ?_⟩⟩
  · show prev.map (fun p => if p.stableId = updated.stableId then updated else p) = prev
    have : prev.map (fun p => if p.stableId = updated.stableId then updated else p)
        = prev.map id := List.map_congr_left (fun p hp => if_neg (hnone p hp))
    rw [this, List.map_id]
  · show (prev.map (fun p => if p.stableId = updated.stableId then updated else p))[i]?
        = some updated
    rw [List.getElem?_map, hp]
    simp [if_pos heq]
  · show (prev.map (fun p => if p.stableId = updated.stableId then updated else p))[i]?
        = some p
    rw [List.getElem?_map, hp]
    simp [if_neg hne]

/-- Witness for C3 at a concrete two-element place list: a non-matching
update leaves the list unchanged with the success toast, and a matching
update replaces exactly the matching entry. -/
theorem c3_save_override_frame_witness :
    (handleSaveOverrideOutcome [placeA, placeB] (Except.ok placeUpdatedNoMatch)).places
        = [placeA, placeB] ∧
    (handleSaveOverrideOutcome [placeA, placeB] (Except.ok placeUpdatedNoMatch)).isError
        = false ∧
    (handleSaveOverrideOutcome [placeA, placeB] (Except.ok placeUpdatedMatch)).places[1]?
        = some placeUpdatedMatch ∧
    (handleSaveOverrideOutcome [placeA, placeB] (Except.ok placeUpdatedMatch)).places[0]?
        = some placeA := by
  refine ⟨(c3_save_override_frame [placeA, placeB] placeUpdatedNoMatch).1 (by decide),
    (c3_save_override_frame [placeA, placeB] placeUpdatedNoMatch).2.1,
    ((c3_save_override_frame [placeA, placeB] placeUpdatedMatch).2.2.2 1 placeB
        (by decide)).1 (by decide),
    ((c3_save_override_frame [placeA, placeB] placeUpdatedMatch).2.2.2 0 placeA
        (by decide)).2 (by decide)⟩

/-- C5 counterexample: for a concrete Stop whose four name fields are
all null, the places-list label is empty (`none`) — the code does not
fall back to a "Lat, Lon" short-format string built from the centroid
(the claim asserts a non-empty coordinate label). -/
theorem c5_all_null_names_label_is_empty :
    placesShortName placeNoNames = none := by decide

/-- C5 (amended): when all of a Stop's name fields (`overrideName`,
`displayName`, `rawName`, `bestPlaceName`) are null, the Stop's
displayed label is empty (undefined) — there is no "Lat, Lon" fallback
in the label; the centroid coordinates appear only on the separate,
always-rendered metadata line. -/
theorem c5_all_null_names_no_latlon_fallback (p : PlaceCandidateDebug)
    (h1 : p.overrideName = none) (h2 : p.displayName = none)
    (h3 : p.rawName = none) (h4 : p.bestPlaceName = none) :
    placesShortName p = none := by
  unfold placesShortName placesPlaceName
  rw [h1, h2, h3, h4]
  rfl

/-- Witness for the amended C5 at a second concrete all-null-names Stop. -/
theorem c5_all_null_names_no_latlon_fallback_witness :
    placesShortName placeNoNamesB = none :=
  c5_all_null_names_no_latlon_fallback placeNoNamesB rfl rfl rfl rfl

/-- C6: running the full (spec-modelled) pipeline twice on identical
input — including identical override state — yields identical `BookPlan`
output; no field depends on the wall clock or on unseeded randomness,
both of which the planner receives but provably ignores. -/
theorem c6_pipeline_deterministic (input : PipelineInput)
    (clock1 clock2 : ℤ) (entropy1 entropy2 : ℕ) :
    buildBookPlan input clock1 entropy1 = buildBookPlan input clock2 entropy2 := rfl

theorem getField_error_eq_null (j : JsValue) (k : String) (e : JsException)
    (h : j.getField k = .error e) : j = JsValue.null := by
  cases j <;> simp_all [JsValue.getField]

/-- C8 (amended): for every response seen by `apiRequest`: on a non-ok
response it never returns a value; it throws an `Error` whose message is
the parsed body's truthy `detail` coerced with `String()` (a string
`detail` verbatim), `Error("Request failed")` when the body is
unparseable, and `Error("HTTP <status>")` when the body parses to a
non-null JSON value without a truthy `detail`; when the body parses to
JSON `null`, the `error.detail` access itself throws a TypeError.  On an
ok response the parsed JSON body is returned. -/
theorem c8_api_request_error_semantics :
    (∀ resp : HttpResponse, resp.ok = false → resp.parsedBody = none →
        apiRequest resp = .error (.error "Request failed")) ∧
    (∀ (resp : HttpResponse) (j d : JsValue), resp.ok = false →
        resp.parsedBody = some j → j.getField "detail" = .ok (some d) →
        d.truthy = true → apiRequest resp = .error (.error d.asMessage)) ∧
    (∀ (resp : HttpResponse) (j : JsValue) (s : String), resp.ok = false →
        resp.parsedBody = some j → j.getField "detail" = .ok (some (.str s)) →
        s ≠ "" → apiRequest resp = .error (.error s)) ∧
    (∀ (resp : HttpResponse) (j : JsValue), resp.ok = false →
        resp.parsedBody = some j → j ≠ JsValue.null →
        (∀ d : JsValue, j.getField "detail" = .ok (some d) → d.truthy = false) →
        apiRequest resp = .error (.error ("HTTP " ++ natStr resp.status))) ∧
    (∀ resp : HttpResponse, resp.ok = false → resp.parsedBody = some JsValue.null →
        apiRequest resp =
          .error (.typeError "Cannot read properties of null (reading 'detail')")) ∧
    (∀ (resp : HttpResponse) (v : JsValue), resp.ok = false →
        apiRequest resp ≠ .ok v) ∧
    (∀ (resp : HttpResponse) (j : JsValue), resp.ok = true →
        resp.parsedBody = some j → apiRequest resp = .ok j) := by
  refine ⟨?_, ?_, ?_, ?_, ?_, ?_, ?_⟩
  · rintro ⟨ok, status, body⟩ hok hbody
    subst hok
    subst hbody
    simp [apiRequest, JsValue.getField, JsValue.truthy, JsValue.asMessage]
  · rintro ⟨ok, status, body⟩ j d hok hbody hdet htr
    subst hok
    subst hbody
    simp [apiRequest, hdet, htr]
  · rintro ⟨ok, status, body⟩ j s hok hbody hdet hs
    subst hok
    subst hbody
    simp [apiRequest, hdet, JsValue.truthy, JsValue.asMessage, hs]
  · rintro ⟨ok, status, body⟩ j hok hbody hnull hfalse
    subst hok
    subst hbody
    cases hd : j.getField "detail" with
    | error e => exact absurd (getField_error_eq_null j "detail" e hd) hnull
    | ok o =>
      cases o with
      | none => simp [apiRequest, hd]
      | some d => simp [apiRequest, hd, hfalse d hd]
  · rintro ⟨ok, status, body⟩ hok hbody
    subst hok
    subst hbody
    rfl
  · rintro ⟨ok, status, body⟩ v hok
    subst hok
    cases body with
    | none => simp [apiRequest, JsValue.getField]
    | some j =>
      cases hd : j.getField "detail" with
      | error e => simp [apiRequest, hd]
      | ok o => cases o <;> simp [apiRequest, hd]
  · rintro ⟨ok, status, body⟩ j hok hbody
    subst hok
    subst hbody
    rfl

/-- C8 counterexample: on a non-ok 502 response whose body parses to
JSON `null`, the claim's "otherwise" clause requires a thrown Error with
message "HTTP 502"; the code instead crashes inside `error.detail` with
a TypeError, so no Error carrying the HTTP message is thrown. -/
theorem c8_api_request_null_body_counterexample :
    apiRequest ⟨false, 502, some JsValue.null⟩ =
      .error (.typeError "Cannot read properties of null (reading 'detail')") ∧
    apiRequest ⟨false, 502, some JsValue.null⟩ ≠
      .error (.error ("HTTP " ++ natStr 502)) := by
  have h0 : apiRequest ⟨false, 502, some JsValue.null⟩ =
      .error (.typeError "Cannot read properties of null (reading 'detail')") := rfl
  refine ⟨h0, ?_⟩
  intro h
  rw [h0] at h
  simp at h

/-- Witness for C8 at concrete responses: an unparseable 404 body gives
Error("Request failed"); a truthy string `detail` gives that detail; a
truthy array `detail` gives its comma-joined coercion; a body without a
truthy `detail` gives Error("HTTP 418"); a JSON-null body raises the
TypeError; a failed response is never a returned value; an ok 200
returns the parsed body. -/
theorem c8_api_request_error_semantics_witness :
    apiRequest ⟨false, 404, none⟩ = .error (.error "Request failed") ∧
    apiRequest ⟨false, 500, some (.obj [("detail", .str "boom")])⟩
        = .error (.error "boom") ∧
    apiRequest ⟨false, 500, some (.obj [("detail", .arr [.str "boom", .num 1])])⟩
        = .error (.error "boom,1") ∧
    apiRequest ⟨false, 418, some (.obj [("other", .bool true)])⟩
        = .error (.error "HTTP 418") ∧
    apiRequest ⟨false, 503, some JsValue.null⟩ =
        .error (.typeError "Cannot read properties of null (reading 'detail')") ∧
    apiRequest ⟨false, 404, none⟩ ≠ .ok JsValue.null ∧
    apiRequest ⟨true, 200, some (.num 3)⟩ = .ok (.num 3) := by
  refine ⟨c8_api_request_error_semantics.1 ⟨false, 404, none⟩ rfl rfl,
    c8_api_request_error_semantics.2.2.1 ⟨false, 500, some (.obj [("detail", .str "boom")])⟩
      (.obj [("detail", .str "boom")]) "boom" rfl rfl rfl (by decide),
    ?_, ?_,
    c8_api_request_error_semantics.2.2.2.2.1 ⟨false, 503, some JsValue.null⟩ rfl rfl,
    c8_api_request_error_semantics.2.2.2.2.2.1 ⟨false, 404, none⟩ JsValue.null rfl,
    c8_api_request_error_semantics.2.2.2.2.2.2 ⟨true, 200, some (.num 3)⟩ (.num 3) rfl rfl⟩
  · have h := c8_api_request_error_semantics.2.1
      ⟨false, 500, some (.obj [("detail", .arr [.str "boom", .num 1])])⟩
      (.obj [("detail", .arr [.str "boom", .num 1])]) (.arr [.str "boom", .num 1])
      rfl rfl rfl rfl
    have hmsg : JsValue.asMessage (.arr [.str "boom", .num 1]) = "boom,1" := by
      simp only [JsValue.asMessage, jsArrayElemStrings]
      decide
    rw [hmsg] at h
    exact h
  · have h := c8_api_request_error_semantics.2.2.2.1
      ⟨false, 418, some (.obj [("other", .bool true)])⟩ (.obj [("other", .bool true)])
      rfl rfl (by simp)
      (fun d hd => by
        rw [show (JsValue.obj [("other", JsValue.bool true)]).getField "detail"
            = Except.ok none from rfl] at hd
        cases hd)
    have hstr : ("HTTP " ++ natStr 418) = "HTTP 418" := by decide
    rw [hstr] at h
    exact h

/-- C1: the claim states the curation quality-suggestion list is ranked
by ascending `quality_score` (lowest-quality first) and capped by the
configured limit.  The cap holds, but the hook sorts by descending
`quality_score`: on two metrics with scores 2 and 9 the selected list
is [9, 2], which is not ascending; the debug panel's "Worst first"
option sorts the same (descending) way, contradicting its own label. -/
theorem c1_quality_suggestion_order_at_failing_input :
    useBookPhotoQualitySummarySelect [pqmLow, pqmHigh] QUALITY_SUGGESTION_LIMIT
        = [pqmHigh, pqmLow] ∧
    ¬ List.Sorted (fun a b => a ≤ b)
        ((useBookPhotoQualitySummarySelect [pqmLow, pqmHigh] QUALITY_SUGGESTION_LIMIT).map
          (fun m => m.quality_score)) ∧
    photosQualityDebugSorted [pqmLow, pqmHigh] QualitySortOrder.worst = [pqmHigh, pqmLow] ∧
    (useBookPhotoQualitySummarySelect [pqmLow, pqmHigh, pqmMid] 2).length = 2 := by
  refine ⟨by decide, by decide, by decide, by decide⟩
